import Mathlib

/-!
Shallow embedding of the airtable-clone client core:
the entity cascade builders (CreateBaseModal / CreateTableModal handleSubmit),
the selection state machine (App.tsx), and the grid editing session
(GridView: parseRecordData / updateCellValue / renderCellValue) together with
the record form input renderer (CreateRecordModal.renderFieldInput).

External collaborators (the blink remote data service, JSON.parse /
JSON.stringify, Date.now / Math.random) are modelled as explicit parameters:
a `remote` oracle mapping each issued call to success or a rejection message,
parse/stringify oracles for the JSON codec, and a draw stream `gen` for the
timestamp/random-suffix pairs consumed by id generation.
-/

namespace AirClone

/-! ## Data model (src/types/index.ts) -/

/-- Field.type enumeration from src/types. -/
inductive FieldType
  | text | number | date | select | multiselect | checkbox
  | url | email | phone | attachment
deriving DecidableEq, Repr

/-- View.type enumeration from src/types. -/
inductive ViewType
  | grid | form | calendar
deriving DecidableEq, Repr

/-- FieldOption from src/types: an entry of a select field's option list. -/
structure FieldOption where
  id : String
  name : String
  color : Option String
deriving DecidableEq, Repr

/-- Base entity from src/types. -/
structure Base where
  id : String
  name : String
  description : Option String
  color : String
  userId : String
  createdAt : String
  updatedAt : String
deriving DecidableEq, Repr

/-- Table entity from src/types. -/
structure Table where
  id : String
  baseId : String
  name : String
  description : Option String
  userId : String
  createdAt : String
  updatedAt : String
deriving DecidableEq, Repr

/-- Field entity from src/types.  `options` is a JSON string when present. -/
structure Field where
  id : String
  tableId : String
  name : String
  type : FieldType
  options : Option String
  required : Bool
  position : Nat
  userId : String
  createdAt : String
  updatedAt : String
deriving DecidableEq, Repr

/-- Record entity from src/types.  `data` is a JSON string mapping field id
to value. -/
structure Record where
  id : String
  tableId : String
  data : String
  userId : String
  createdAt : String
  updatedAt : String
deriving DecidableEq, Repr

/-- A JavaScript value stored in a record's data mapping (the `any` values the
grid and record form actually put there: strings from text inputs, booleans
from checkboxes, numbers). -/
inductive Value
  | str (s : String)
  | bool (b : Bool)
  | num (n : Int)
deriving DecidableEq, Repr

/-- A parsed `Record.data` object: a field-id-keyed mapping, modelled as an
association list in key insertion order (JavaScript object semantics). -/
abbrev RecordData : Type := List (String × Value)

/-- JavaScript property read `data[k]`. -/
def objGet (d : RecordData) (k : String) : Option Value :=
  (d.find? (fun kv => kv.1 == k)).map (·.2)

/-- JavaScript object spread `\x7b ...d, [k]: v \x7d`: every key of `d` is kept
(with `k` remapped to `v` if present), and `k` is appended when new. -/
def objSet (d : RecordData) (k : String) (v : Value) : RecordData :=
  if d.any (fun kv => kv.1 == k) then
    d.map (fun kv => if kv.1 == k then (k, v) else kv)
  else
    d ++ [(k, v)]

/-- JavaScript `String.prototype.trim()`, modelled structurally (strip
leading and trailing whitespace); Lean's own `String.trim` is not used
because its byte-position recursion does not reduce. -/
def jsTrim (s : String) : String :=
  String.mk (((s.data.dropWhile Char.isWhitespace).reverse.dropWhile
    Char.isWhitespace).reverse)

/-- JavaScript truthiness of an optional cell value (`undefined` is falsy,
`''` is falsy, `false` is falsy, `0` is falsy). -/
def jsTruthy : Option Value → Bool
  | none => false
  | some (.str s) => !s.isEmpty
  | some (.bool b) => b
  | some (.num n) => n != 0

/-- String rendering of a stored value (what interpolating the value into
text content produces). -/
def valueToString : Value → String
  | .str s => s
  | .bool b => if b then "true" else "false"
  | .num n => toString n

/-- JavaScript `value || ''` rendered as a string. -/
def jsOrEmpty (v : Option Value) : String :=
  match v with
  | some w => if jsTruthy (some w) then valueToString w else ""
  | none => ""

/-! ## Remote data service calls

Each constructor records one `blink.db.<collection>.create/update` call with
the exact payload the source passes.  `createField` carries the option list
structurally: the source stores `JSON.stringify` of that literal list.
`createTable` has `description = none` both when the key is absent
(CreateBaseModal) and when it is `null` (CreateTableModal). -/

inductive RemoteCall
  | createBase (id name : String) (description : Option String)
      (color userId : String)
  | createTable (id baseId name : String) (description : Option String)
      (userId : String)
  | createField (id tableId name : String) (type : FieldType)
      (options : Option (List FieldOption)) (position : Nat)
      (required : Bool) (userId : String)
  | createView (id tableId name : String) (type : ViewType) (userId : String)
  | updateRecord (id : String) (data : String)
deriving DecidableEq, Repr

/-- Authenticated user, as returned by `blink.auth.me()`. -/
structure User where
  id : String
  email : String
deriving DecidableEq, Repr

/-- The external environment of one submit interaction: the result of
`blink.auth.me()` and, for each remote call, either success (`none`) or the
rejection's error message (`some msg`). -/
structure Env where
  auth : Except String User
  remote : RemoteCall → Option String

/-! ## Id generation

Each id is built from one `Date.now()` / `Math.random().toString(36).substr(2, 9)`
draw; `gen n` is the pair drawn by the n-th generation site of the handler. -/

/-- `` `tag_${Date.now()}_${Math.random().toString(36).substr(2, 9)}` ``:
the id pattern used for bases, tables, views, and CreateBaseModal's fields. -/
def genId (tag : String) (d : Nat × String) : String :=
  tag ++ "_" ++ toString d.1 ++ "_" ++ d.2

/-- `` `field_${Date.now()}_${i}_${Math.random().toString(36).substr(2, 9)}` ``:
the indexed field id pattern used only by CreateTableModal. -/
def genFieldIdIndexed (d : Nat × String) (i : Nat) : String :=
  "field_" ++ toString d.1 ++ "_" ++ toString i ++ "_" ++ d.2

/-! ## Submit outcome -/

/-- Observable outcome of one handleSubmit run: the remote create calls
issued in order, whether the form fields were cleared, whether the modal was
closed (`onOpenChange(false)`), whether the `onSuccess` callback fired,
any `alert` message shown, and any `console.error`-logged message. -/
structure SubmitResult where
  calls : List RemoteCall
  formCleared : Bool
  modalClosed : Bool
  onSuccessCalled : Bool
  alertShown : Option String
  loggedError : Option String
deriving DecidableEq, Repr

/-- Early return (empty trimmed name / missing baseId): nothing happens. -/
def SubmitResult.noop : SubmitResult :=
  ⟨[], false, false, false, none, none⟩

/-- The catch branch of CreateBaseModal.handleSubmit: the error is logged
with `console.error`; no alert is shown, the modal stays open. -/
def baseFailure (issued : List RemoteCall) (e : String) : SubmitResult :=
  ⟨issued, false, false, false, none, some e⟩

/-- The catch branch of CreateTableModal.handleSubmit: the error is logged
and also surfaced as `alert("Failed to create table: " + message)`; the
modal stays open. -/
def tableFailure (issued : List RemoteCall) (e : String) : SubmitResult :=
  ⟨issued, false, false, false, some ("Failed to create table: " ++ e), some e⟩

/-- The success tail of either handler: form cleared, modal closed,
`onSuccess` invoked (directly, or after the 100ms timeout in the table
modal). -/
def submitSuccess (issued : List RemoteCall) : SubmitResult :=
  ⟨issued, true, true, true, none, none⟩

/-! ## Cascade execution

The awaited create calls of a cascade form a sequence whose payloads are
fixed up front (ids depend only on the draw stream, never on call results);
`runSeq` issues them in order and stops at the first rejection, exactly as
the successive `await`s inside the `try` block do. -/

/-- Issue calls in order until one rejects; return the calls actually issued
and the first rejection message, if any. -/
def runSeq (remote : RemoteCall → Option String) :
    List RemoteCall → List RemoteCall × Option String
  | [] => ([], none)
  | c :: cs =>
    match remote c with
    | some e => ([c], some e)
    | none =>
      let r := runSeq remote cs
      (c :: r.1, r.2)

/-- The fixed three-option palette of the default Status field
(CreateBaseModal lines 57-61). -/
def statusOptions : List FieldOption :=
  [⟨"todo", "To do", some "#EF4444"⟩,
   ⟨"in_progress", "In progress", some "#F59E0B"⟩,
   ⟨"done", "Done", some "#10B981"⟩]

/-- The six create calls of CreateBaseModal.handleSubmit, in source order:
base, default table "Table 1", three default fields (Name:text@0,
Notes:text@1, Status:select@2 with `statusOptions`), default grid view.
Field ids here use the unindexed `genId` pattern (line 65). -/
def baseCascadeCalls (gen : Nat → Nat × String) (user : User)
    (trimmedName : String) (description : Option String) (color : String) :
    List RemoteCall :=
  let baseId := genId "base" (gen 0)
  let tableId := genId "table" (gen 1)
  [RemoteCall.createBase baseId trimmedName description color user.id,
   RemoteCall.createTable tableId baseId "Table 1" none user.id,
   RemoteCall.createField (genId "field" (gen 2)) tableId "Name"
     FieldType.text none 0 false user.id,
   RemoteCall.createField (genId "field" (gen 3)) tableId "Notes"
     FieldType.text none 1 false user.id,
   RemoteCall.createField (genId "field" (gen 4)) tableId "Status"
     FieldType.select (some statusOptions) 2 false user.id,
   RemoteCall.createView (genId "view" (gen 5)) tableId "Grid view"
     ViewType.grid user.id]

/-- CreateBaseModal.handleSubmit: guard on the trimmed name, `me()`, the
six-call cascade, then the success tail; any rejection is caught by the
single catch which only logs. -/
def createBaseSubmit (env : Env) (gen : Nat → Nat × String)
    (name description selectedColor : String) : SubmitResult :=
  if jsTrim name = "" then SubmitResult.noop
  else
    match env.auth with
    | Except.error e => baseFailure [] e
    | Except.ok user =>
      let description := if jsTrim description = "" then none
        else some (jsTrim description)
      let r := runSeq env.remote
        (baseCascadeCalls gen user (jsTrim name) description selectedColor)
      match r.2 with
      | some e => baseFailure r.1 e
      | none => submitSuccess r.1

/-- The four create calls of CreateTableModal.handleSubmit, in source order:
table, two default fields (Name:text@0, Notes:text@1), default grid view.
Field ids use the indexed `genFieldIdIndexed` pattern (line 58). -/
def tableCascadeCalls (gen : Nat → Nat × String) (user : User)
    (baseId trimmedName : String) (description : Option String) :
    List RemoteCall :=
  let tableId := genId "table" (gen 0)
  [RemoteCall.createTable tableId baseId trimmedName description user.id,
   RemoteCall.createField (genFieldIdIndexed (gen 1) 0) tableId "Name"
     FieldType.text none 0 false user.id,
   RemoteCall.createField (genFieldIdIndexed (gen 2) 1) tableId "Notes"
     FieldType.text none 1 false user.id,
   RemoteCall.createView (genId "view" (gen 3)) tableId "Grid view"
     ViewType.grid user.id]

/-- CreateTableModal.handleSubmit: guard on the trimmed name and baseId,
`me()`, the four-call cascade, then the success tail (the 10ms inter-field
delays and the 100ms delayed `onSuccess` always resolve and are not
observable here); any rejection is caught by the catch which logs and
alerts. -/
def createTableSubmit (env : Env) (gen : Nat → Nat × String)
    (baseId name description : String) : SubmitResult :=
  if jsTrim name = "" ∨ baseId = "" then SubmitResult.noop
  else
    match env.auth with
    | Except.error e => tableFailure [] e
    | Except.ok user =>
      let description := if jsTrim description = "" then none
        else some (jsTrim description)
      let r := runSeq env.remote
        (tableCascadeCalls gen user baseId (jsTrim name) description)
      match r.2 with
      | some e => tableFailure r.1 e
      | none => submitSuccess r.1

/-! ## Selection state machine (src/App.tsx)

The App component's selection state and the pure transitions performed by its
selection handlers. -/

/-- The selection-related state hooks of App: the three selected ids and the
two loaded current entities. -/
structure AppState where
  selectedBaseId : Option String
  selectedTableId : Option String
  selectedViewId : Option String
  currentBase : Option Base
  currentTable : Option Table
deriving DecidableEq, Repr

/-- `handleBaseSelect` (App.tsx lines 77-82): select the base, clear the
table and view selections and the loaded current table. -/
def handleBaseSelect (baseId : String) (s : AppState) : AppState :=
  { s with
    selectedBaseId := some baseId
    selectedTableId := none
    selectedViewId := none
    currentTable := none }

/-- `handleTableSelect` (App.tsx lines 84-87): select the table and clear the
view selection. -/
def handleTableSelect (tableId : String) (s : AppState) : AppState :=
  { s with
    selectedTableId := some tableId
    selectedViewId := none }

/-- `handleViewSelect` (App.tsx lines 89-91): select the view only. -/
def handleViewSelect (viewId : String) (s : AppState) : AppState :=
  { s with selectedViewId := some viewId }

/-- One user selection action in the sidebar. -/
inductive SelectOp
  | selectBase (id : String)
  | selectTable (id : String)
  | selectView (id : String)
deriving DecidableEq, Repr

/-- Apply one selection action. -/
def applySelectOp (s : AppState) : SelectOp → AppState
  | .selectBase id => handleBaseSelect id s
  | .selectTable id => handleTableSelect id s
  | .selectView id => handleViewSelect id s

/-- Apply a sequence of selection actions, oldest first. -/
def runSelectOps (s : AppState) (ops : List SelectOp) : AppState :=
  ops.foldl applySelectOp s

/-! ## Grid editing session (GridView) and record form rendering

`JSON.parse` is modelled by an oracle `parse : String → Option RecordData`
(respectively `parseOpts : String → Option (List FieldOption)` for option
lists): `none` means the string is not valid JSON and `JSON.parse` throws.
`JSON.stringify` on data mappings is an oracle
`stringify : RecordData → String`. -/

/-- `parseRecordData` (GridView lines 67-73): `JSON.parse` under a
try/catch that defaults to the empty object. -/
def parseRecordData (parse : String → Option RecordData) (dataString : String) :
    RecordData :=
  (parse dataString).getD []

/-- `updateCellValue` (GridView lines 75-96).  Looks the record up in the
cached list; when absent, returns without doing anything.  Otherwise merges
the value into the parsed data, awaits the remote update with the full
stringified mapping and, only when that call resolves, mirrors the new data
string into the cached list (a rejection is caught and logged, leaving the
cache untouched).  Returns the issued calls and the new cached list. -/
def updateCellValue (remote : RemoteCall → Option String)
    (parse : String → Option RecordData) (stringify : RecordData → String)
    (records : List Record) (recordId fieldId : String) (value : Value) :
    List RemoteCall × List Record :=
  match records.find? (fun r => r.id == recordId) with
  | none => ([], records)
  | some record =>
    let currentData := parseRecordData parse record.data
    let newData := objSet currentData fieldId value
    let call := RemoteCall.updateRecord recordId (stringify newData)
    match remote call with
    | some _ => ([call], records)
    | none =>
      ([call],
       records.map (fun r =>
         if r.id == recordId then { r with data := stringify newData } else r))

/-- What a read-only grid cell displays. -/
inductive CellView
  | checkboxCell (checked : Bool)
  | badgeCell (label : String)
  | dateCell (s : String)
  | textCell (s : String)
  | emptyCell
deriving DecidableEq, Repr

/-- The select-cell body shared by the empty-options and parsed-options
paths of `renderCellValue`: find the option whose id strictly equals the
stored value and display its name as a badge, or nothing. -/
def selectCellView (options : List FieldOption) (value : Option Value) :
    CellView :=
  match options.find? (fun opt => some (Value.str opt.id) == value) with
  | some selectedOption => .badgeCell selectedOption.name
  | none => .emptyCell

/-- `renderCellValue` (GridView lines 98-128).  The select branch evaluates
`field.options ? JSON.parse(field.options) : []` with no try/catch, so an
unparseable non-empty options string makes `JSON.parse` throw: that is the
`Except.error` result, carrying the offending string.  (`new
Date(value).toLocaleDateString()` is abstracted to a date cell carrying the
raw value's text.) -/
def renderCellValue (parse : String → Option RecordData)
    (parseOpts : String → Option (List FieldOption))
    (record : Record) (field : Field) : Except String CellView :=
  let data := parseRecordData parse record.data
  let value := objGet data field.id
  match field.type with
  | .checkbox => .ok (.checkboxCell (jsTruthy value))
  | .select =>
    match field.options with
    | some s =>
      if s = "" then .ok (selectCellView [] value)
      else
        match parseOpts s with
        | none => .error s
        | some options => .ok (selectCellView options value)
    | none => .ok (selectCellView [] value)
  | .date =>
    .ok (if jsTruthy value then .dateCell (valueToString (value.getD (.str "")))
         else .textCell "")
  | _ => .ok (.textCell (jsOrEmpty value))

/-- What a record-form input renders as (CreateRecordModal). -/
inductive InputView
  | textInput (v : String)
  | numberInput (v : String)
  | dateInput (v : String)
  | checkboxInput (checked : Bool)
  | selectInput (options : List FieldOption) (v : String)
  | urlInput (v : String)
  | emailInput (v : String)
  | phoneInput (v : String)
deriving DecidableEq, Repr

/-- `renderFieldInput` (CreateRecordModal lines 81-183) over the in-memory
form data mapping.  The select branch evaluates
`field.options ? JSON.parse(field.options) : []` with no try/catch, same as
the grid cell renderer. -/
def renderFieldInput (parseOpts : String → Option (List FieldOption))
    (formData : RecordData) (field : Field) : Except String InputView :=
  let value := objGet formData field.id
  match field.type with
  | .text => .ok (.textInput (jsOrEmpty value))
  | .number => .ok (.numberInput (jsOrEmpty value))
  | .date => .ok (.dateInput (jsOrEmpty value))
  | .checkbox => .ok (.checkboxInput (jsTruthy value))
  | .select =>
    match field.options with
    | some s =>
      if s = "" then .ok (.selectInput [] (jsOrEmpty value))
      else
        match parseOpts s with
        | none => .error s
        | some options => .ok (.selectInput options (jsOrEmpty value))
    | none => .ok (.selectInput [] (jsOrEmpty value))
  | .url => .ok (.urlInput (jsOrEmpty value))
  | .email => .ok (.emailInput (jsOrEmpty value))
  | .phone => .ok (.phoneInput (jsOrEmpty value))
  | _ => .ok (.textInput (jsOrEmpty value))

/-! ## General lemmas about the embedding -/

/-- A call sequence in which every call succeeds is issued in full. -/
theorem runSeq_all_ok (remote : RemoteCall → Option String) :
    ∀ L : List RemoteCall, (∀ c ∈ L, remote c = none) →
      runSeq remote L = (L, none)
  | [], _ => rfl
  | c :: cs, h => by
    have hc : remote c = none := h c (List.mem_cons_self c cs)
    have ih := runSeq_all_ok remote cs (fun d hd => h d (List.mem_cons_of_mem c hd))
    simp [runSeq, hc, ih]

/-- A call sequence stops at its first rejection: the calls before it are
issued, the rejecting call is issued, and nothing after it is. -/
theorem runSeq_first_fail (remote : RemoteCall → Option String) :
    ∀ (A : List RemoteCall) (c : RemoteCall) (B : List RemoteCall) (e : String),
      (∀ a ∈ A, remote a = none) → remote c = some e →
      runSeq remote (A ++ c :: B) = (A ++ [c], some e)
  | [], c, _, _, _, hc => by simp [runSeq, hc]
  | a :: A, c, B, e, hA, hc => by
    have ha : remote a = none := hA a (List.mem_cons_self a A)
    have ih := runSeq_first_fail remote A c B e
      (fun x hx => hA x (List.mem_cons_of_mem a hx)) hc
    simp [runSeq, ha, ih]

/-- A successful lookup is preserved by appending on the right. -/
theorem find?_append_hit {α : Type} (p : α → Bool) :
    ∀ (l₁ l₂ : List α) (x : α), l₁.find? p = some x →
      (l₁ ++ l₂).find? p = some x
  | [], _, _, h => by simp at h
  | a :: tl, l₂, x, h => by
    rw [List.cons_append]
    cases hpa : p a with
    | true =>
      rw [List.find?_cons_of_pos _ hpa] at h
      rw [List.find?_cons_of_pos _ hpa]
      exact h
    | false =>
      rw [List.find?_cons_of_neg _ (by simp [hpa])] at h
      rw [List.find?_cons_of_neg _ (by simp [hpa])]
      exact find?_append_hit p tl l₂ x h

/-- A failed lookup falls through an append to the right part. -/
theorem find?_append_miss {α : Type} (p : α → Bool) :
    ∀ (l₁ l₂ : List α), l₁.find? p = none →
      (l₁ ++ l₂).find? p = l₂.find? p
  | [], _, _ => rfl
  | a :: tl, l₂, h => by
    rw [List.cons_append]
    cases hpa : p a with
    | true =>
      rw [List.find?_cons_of_pos _ hpa] at h
      exact absurd h (by simp)
    | false =>
      rw [List.find?_cons_of_neg _ (by simp [hpa])] at h
      rw [List.find?_cons_of_neg _ (by simp [hpa])]
      exact find?_append_miss p tl l₂ h

/-- Looking up the merged key after a JavaScript spread-merge finds the new
value (auxiliary, replaced-key case). -/
theorem find?_map_replace (k : String) (v : Value) :
    ∀ d : RecordData, d.any (fun kv => kv.1 == k) = true →
      (d.map (fun kv => if kv.1 == k then (k, v) else kv)).find?
          (fun kv => kv.1 == k) = some (k, v)
  | [], h => by simp at h
  | (a, b) :: tl, h => by
    by_cases hak : a = k
    · subst hak
      simp only [List.map_cons, List.find?_cons, beq_self_eq_true, if_true]
    · have hak' : (a == k) = false := beq_eq_false_iff_ne.mpr hak
      have htl : tl.any (fun kv => kv.1 == k) = true := by
        simp only [List.any_cons, hak', Bool.false_or] at h
        exact h
      have ih := find?_map_replace k v tl htl
      simp only [List.map_cons, List.find?_cons, hak', Bool.false_eq_true,
        if_false, ih]

/-- Spread-merging key `k` does not change what a lookup of a different key
finds (auxiliary, replaced-key case). -/
theorem find?_map_replace_other (k : String) (v : Value) (g : String)
    (hg : g ≠ k) :
    ∀ d : RecordData,
      (d.map (fun kv => if kv.1 == k then (k, v) else kv)).find?
          (fun kv => kv.1 == g) = d.find? (fun kv => kv.1 == g)
  | [] => rfl
  | (a, b) :: tl => by
    have ih := find?_map_replace_other k v g hg tl
    by_cases hak : a = k
    · subst hak
      have hkg : (a == g) = false := beq_eq_false_iff_ne.mpr (fun h => hg h.symm)
      simp only [List.map_cons, List.find?_cons, beq_self_eq_true, if_true,
        hkg, Bool.false_eq_true, if_false, ih]
    · have hak' : (a == k) = false := beq_eq_false_iff_ne.mpr hak
      simp only [List.map_cons, List.find?_cons, hak', Bool.false_eq_true,
        if_false, ih]

/-- Reading the key just written by a spread-merge yields the new value. -/
theorem objGet_objSet_same (d : RecordData) (k : String) (v : Value) :
    objGet (objSet d k v) k = some v := by
  unfold objSet
  by_cases h : d.any (fun kv => kv.1 == k) = true
  · simp only [h, if_true, objGet]
    rw [find?_map_replace k v d h]
    rfl
  · have hnone : d.find? (fun kv => kv.1 == k) = none := by
      rw [List.find?_eq_none]
      intro x hx hxk
      exact h (List.any_eq_true.mpr ⟨x, hx, hxk⟩)
    rw [if_neg h]
    simp only [objGet]
    rw [find?_append_miss _ d _ hnone]
    simp

/-- Reading any other key after a spread-merge is unchanged. -/
theorem objGet_objSet_other (d : RecordData) (k : String) (v : Value)
    (g : String) (hg : g ≠ k) : objGet (objSet d k v) g = objGet d g := by
  unfold objSet
  by_cases h : d.any (fun kv => kv.1 == k) = true
  · simp only [h, if_true, objGet, find?_map_replace_other k v g hg d]
  · have hkg : (k == g) = false := beq_eq_false_iff_ne.mpr (fun hh => hg hh.symm)
    rw [if_neg h]
    simp only [objGet]
    cases hfd : d.find? (fun kv => kv.1 == g) with
    | some x => rw [find?_append_hit _ d _ _ hfd]
    | none =>
      rw [find?_append_miss _ d _ hfd]
      rw [List.find?_cons_of_neg _ (by simp [hkg]), List.find?_nil]

/-- Updating one record's data in the cached list (by id) is reflected by a
subsequent by-id lookup. -/
theorem find?_map_update_record (records : List Record) (recordId : String)
    (newData : String) (rec : Record)
    (hfind : records.find? (fun r => r.id == recordId) = some rec) :
    (records.map (fun r =>
        if r.id == recordId then { r with data := newData } else r)).find?
      (fun r => r.id == recordId) = some { rec with data := newData } := by
  induction records with
  | nil => simp at hfind
  | cons a tl ih =>
    by_cases ha : a.id = recordId
    · have ha' : (a.id == recordId) = true := beq_iff_eq.mpr ha
      simp only [List.find?_cons, ha'] at hfind
      injection hfind with hfind
      subst hfind
      simp only [List.map_cons, List.find?_cons]
      rw [if_pos ha']
      simp [ha']
    · have ha' : (a.id == recordId) = false := beq_eq_false_iff_ne.mpr ha
      simp only [List.find?_cons, ha'] at hfind
      simp only [List.map_cons, List.find?_cons, ha', Bool.false_eq_true,
        if_false]
      exact ih hfind

/-! ## Claim theorems -/

/-- C5: For every state reachable by any sequence of selection operations
and every base id `b`, immediately after `selectBase(b)` (handleBaseSelect)
the table selection and the view selection are both empty — in particular
also when `b` equals the currently selected base id, since the statement
holds for every prior state. -/
theorem selectBase_clears_descendants (s : AppState) (ops : List SelectOp)
    (b : String) :
    (handleBaseSelect b (runSelectOps s ops)).selectedTableId = none ∧
    (handleBaseSelect b (runSelectOps s ops)).selectedViewId = none := by
  exact ⟨rfl, rfl⟩

/-- C6: For every table id `t` and every prior selection state, immediately
after `selectTable(t)` (handleTableSelect) the view selection is empty and
the base selection is unchanged; the handler writes only the table and view
components, so the loaded current base and table are untouched as well. -/
theorem selectTable_clears_view_preserves_base (s : AppState) (t : String) :
    (handleTableSelect t s).selectedViewId = none ∧
    (handleTableSelect t s).selectedBaseId = s.selectedBaseId ∧
    (handleTableSelect t s).currentBase = s.currentBase ∧
    (handleTableSelect t s).currentTable = s.currentTable ∧
    (handleTableSelect t s).selectedTableId = some t := by
  exact ⟨rfl, rfl, rfl, rfl, rfl⟩

/-- C9: An `updateCellValue` call whose record id matches no cached record
is a complete no-op: no remote call is issued and the cached list is
returned unchanged. -/
theorem updateCellValue_unknown_record_noop
    (remote : RemoteCall → Option String)
    (parse : String → Option RecordData) (stringify : RecordData → String)
    (records : List Record) (recordId fieldId : String) (value : Value)
    (h : records.find? (fun r => r.id == recordId) = none) :
    updateCellValue remote parse stringify records recordId fieldId value =
      ([], records) := by
  simp [updateCellValue, h]

/-- Witness for C9 at a concrete input: the cache is empty, so the lookup
fails and the call does nothing. -/
theorem updateCellValue_unknown_record_noop_witness :
    ([] : List Record).find? (fun r => r.id == "r1") = none ∧
    updateCellValue (fun _ => none) (fun _ => none) (fun _ => "")
      [] "r1" "f1" (Value.str "x") = ([], []) := by
  exact ⟨rfl, updateCellValue_unknown_record_noop _ _ _ [] "r1" "f1"
    (Value.str "x") rfl⟩

/-- C10: When the remote update of the merged mapping rejects, the caught
error leaves the cached record list exactly as it was: the local mirror is
written only after the awaited remote persist resolves. -/
theorem updateCellValue_failure_preserves_cache
    (remote : RemoteCall → Option String)
    (parse : String → Option RecordData) (stringify : RecordData → String)
    (records : List Record) (recordId fieldId : String) (value : Value)
    (rec : Record) (e : String)
    (hfind : records.find? (fun r => r.id == recordId) = some rec)
    (hremote : remote (RemoteCall.updateRecord recordId
      (stringify (objSet (parseRecordData parse rec.data) fieldId value))) =
      some e) :
    (updateCellValue remote parse stringify records recordId fieldId
      value).2 = records := by
  simp [updateCellValue, hfind, hremote]

/-- Witness for C10 at a concrete input: one cached record, a remote oracle
that rejects every call; the cache afterwards equals the cache before. -/
theorem updateCellValue_failure_preserves_cache_witness :
    ([⟨"r1", "t1", "d0", "u1", "", ""⟩] : List Record).find?
        (fun r => r.id == "r1") = some ⟨"r1", "t1", "d0", "u1", "", ""⟩ ∧
    ((fun _ => some "network down") : RemoteCall → Option String)
        (RemoteCall.updateRecord "r1"
          ((fun _ => "S1") (objSet (parseRecordData (fun _ => some []) "d0")
            "f1" (Value.str "x")))) = some "network down" ∧
    (updateCellValue (fun _ => some "network down") (fun _ => some [])
      (fun _ => "S1") [⟨"r1", "t1", "d0", "u1", "", ""⟩] "r1" "f1"
      (Value.str "x")).2 = [⟨"r1", "t1", "d0", "u1", "", ""⟩] := by
  refine ⟨rfl, rfl, ?_⟩
  exact updateCellValue_failure_preserves_cache (fun _ => some "network down")
    (fun _ => some []) (fun _ => "S1") [⟨"r1", "t1", "d0", "u1", "", ""⟩]
    "r1" "f1" (Value.str "x") ⟨"r1", "t1", "d0", "u1", "", ""⟩
    "network down" rfl rfl

/-- C7: A successful `updateCellValue(r, f, v)` on a cached record merges
`v` into the record's field-id-keyed data mapping under key `f`, persists
the full serialized merged mapping to the remote service (the single issued
call), and mirrors the change into the cached list, so that an immediately
following lookup/render of record `r` sees value `v` for field `f` — and
every other key of the mapping is intact.  Hypotheses: the record is in the
cache, its data parses to `d`, the remote update resolves, and the JSON
codec round-trips on the merged mapping. -/
theorem updateCellValue_merge_persist_mirror
    (remote : RemoteCall → Option String)
    (parse : String → Option RecordData) (stringify : RecordData → String)
    (records : List Record) (recordId fieldId : String) (value : Value)
    (rec : Record) (d : RecordData)
    (hfind : records.find? (fun r => r.id == recordId) = some rec)
    (hparse : parse rec.data = some d)
    (hremote : remote (RemoteCall.updateRecord recordId
      (stringify (objSet d fieldId value))) = none)
    (hround : parse (stringify (objSet d fieldId value)) =
      some (objSet d fieldId value)) :
    (updateCellValue remote parse stringify records recordId fieldId
        value).1 =
      [RemoteCall.updateRecord recordId
        (stringify (objSet d fieldId value))] ∧
    (updateCellValue remote parse stringify records recordId fieldId
        value).2.find? (fun r => r.id == recordId) =
      some { rec with data := stringify (objSet d fieldId value) } ∧
    objGet (parseRecordData parse (stringify (objSet d fieldId value)))
        fieldId = some value ∧
    (∀ g, g ≠ fieldId →
      objGet (parseRecordData parse (stringify (objSet d fieldId value)))
          g = objGet d g) := by
  have hpd : parseRecordData parse rec.data = d := by
    simp [parseRecordData, hparse]
  have hnew : parseRecordData parse (stringify (objSet d fieldId value)) =
      objSet d fieldId value := by
    simp [parseRecordData, hround]
  refine ⟨?_, ?_, ?_, ?_⟩
  · simp [updateCellValue, hfind, hpd, hremote]
  · simp only [updateCellValue, hfind, hpd, hremote]
    exact find?_map_update_record records recordId _ rec hfind
  · rw [hnew]
    exact objGet_objSet_same d fieldId value
  · intro g hgf
    rw [hnew]
    exact objGet_objSet_other d fieldId value g hgf

/-- Witness for C7 at a concrete input: one cached record with empty parsed
data, a codec that stringifies the merged mapping to "S1" and parses it
back, and a remote oracle that resolves every call. -/
theorem updateCellValue_merge_persist_mirror_witness :
    ([⟨"r1", "t1", "d0", "u1", "", ""⟩] : List Record).find?
        (fun r => r.id == "r1") = some ⟨"r1", "t1", "d0", "u1", "", ""⟩ ∧
    (updateCellValue (fun _ => none)
        (fun s => if s = "d0" then some [] else
          if s = "S1" then some [("f1", Value.str "x")] else none)
        (fun _ => "S1") [⟨"r1", "t1", "d0", "u1", "", ""⟩] "r1" "f1"
        (Value.str "x")).1 =
      [RemoteCall.updateRecord "r1" "S1"] ∧
    (updateCellValue (fun _ => none)
        (fun s => if s = "d0" then some [] else
          if s = "S1" then some [("f1", Value.str "x")] else none)
        (fun _ => "S1") [⟨"r1", "t1", "d0", "u1", "", ""⟩] "r1" "f1"
        (Value.str "x")).2.find? (fun r => r.id == "r1") =
      some ⟨"r1", "t1", "S1", "u1", "", ""⟩ ∧
    objGet (parseRecordData
        (fun s => if s = "d0" then some [] else
          if s = "S1" then some [("f1", Value.str "x")] else none) "S1")
      "f1" = some (Value.str "x") := by
  have h := updateCellValue_merge_persist_mirror (fun _ => none)
    (fun s => if s = "d0" then some [] else
      if s = "S1" then some [("f1", Value.str "x")] else none)
    (fun _ => "S1") [⟨"r1", "t1", "d0", "u1", "", ""⟩] "r1" "f1"
    (Value.str "x") ⟨"r1", "t1", "d0", "u1", "", ""⟩ [] rfl (by decide)
    rfl (by decide)
  exact ⟨rfl, h.1, h.2.1, h.2.2.1⟩

/-- C1: A successful createBase cascade (non-empty trimmed name,
authenticated user, every remote call resolving) issues, after the base
create, exactly one table create named "Table 1", then exactly three field
creates at positions 0, 1, 2 with types text, text, select — the select
field carrying the options To do / In progress / Done (`statusOptions`) —
then exactly one view create of type grid, in that order, and only then
reports success (`submitSuccess`: form cleared, modal closed, `onSuccess`
invoked, no alert, no logged error). -/
theorem createBase_cascade_success (env : Env) (gen : Nat → Nat × String)
    (name description color : String) (user : User)
    (hname : jsTrim name ≠ "") (hauth : env.auth = Except.ok user)
    (hok : ∀ c, env.remote c = none) :
    createBaseSubmit env gen name description color =
      submitSuccess
        [RemoteCall.createBase (genId "base" (gen 0)) (jsTrim name)
           (if jsTrim description = "" then none else some (jsTrim description))
           color user.id,
         RemoteCall.createTable (genId "table" (gen 1)) (genId "base" (gen 0))
           "Table 1" none user.id,
         RemoteCall.createField (genId "field" (gen 2)) (genId "table" (gen 1))
           "Name" FieldType.text none 0 false user.id,
         RemoteCall.createField (genId "field" (gen 3)) (genId "table" (gen 1))
           "Notes" FieldType.text none 1 false user.id,
         RemoteCall.createField (genId "field" (gen 4)) (genId "table" (gen 1))
           "Status" FieldType.select (some statusOptions) 2 false user.id,
         RemoteCall.createView (genId "view" (gen 5)) (genId "table" (gen 1))
           "Grid view" ViewType.grid user.id] := by
  unfold createBaseSubmit
  rw [if_neg hname, hauth]
  have h := runSeq_all_ok env.remote
    (baseCascadeCalls gen user (jsTrim name)
      (if jsTrim description = "" then none else some (jsTrim description)) color)
    (fun c _ => hok c)
  simp only [baseCascadeCalls] at h
  simp [baseCascadeCalls, h]

/-- Witness for C1 at a concrete input: a remote oracle resolving every
call; the cascade reports success with the six calls in order. -/
theorem createBase_cascade_success_witness :
    jsTrim "My base" ≠ "" ∧
    createBaseSubmit ⟨Except.ok ⟨"u1", "u1@example.com"⟩, fun _ => none⟩
        (fun n => (n, "rnd")) "My base" "" "#2563EB" =
      submitSuccess
        [RemoteCall.createBase "base_0_rnd" "My base" none "#2563EB" "u1",
         RemoteCall.createTable "table_1_rnd" "base_0_rnd" "Table 1" none "u1",
         RemoteCall.createField "field_2_rnd" "table_1_rnd" "Name"
           FieldType.text none 0 false "u1",
         RemoteCall.createField "field_3_rnd" "table_1_rnd" "Notes"
           FieldType.text none 1 false "u1",
         RemoteCall.createField "field_4_rnd" "table_1_rnd" "Status"
           FieldType.select (some statusOptions) 2 false "u1",
         RemoteCall.createView "view_5_rnd" "table_1_rnd" "Grid view"
           ViewType.grid "u1"] := by
  constructor
  · decide
  · have h := createBase_cascade_success
      ⟨Except.ok ⟨"u1", "u1@example.com"⟩, fun _ => none⟩
      (fun n => (n, "rnd")) "My base" "" "#2563EB" ⟨"u1", "u1@example.com"⟩
      (by decide) rfl (fun c => rfl)
    rw [h]
    rfl

/-- C2: A successful createTable cascade (non-empty trimmed name, non-empty
baseId, authenticated user, every remote call resolving) issues, after the
table create, exactly two field creates at positions 0 and 1, both of type
text, then exactly one view create of type grid, in that order, before
reporting success. -/
theorem createTable_cascade_success (env : Env) (gen : Nat → Nat × String)
    (baseId name description : String) (user : User)
    (hname : jsTrim name ≠ "") (hbase : baseId ≠ "")
    (hauth : env.auth = Except.ok user)
    (hok : ∀ c, env.remote c = none) :
    createTableSubmit env gen baseId name description =
      submitSuccess
        [RemoteCall.createTable (genId "table" (gen 0)) baseId (jsTrim name)
           (if jsTrim description = "" then none else some (jsTrim description))
           user.id,
         RemoteCall.createField (genFieldIdIndexed (gen 1) 0)
           (genId "table" (gen 0)) "Name" FieldType.text none 0 false user.id,
         RemoteCall.createField (genFieldIdIndexed (gen 2) 1)
           (genId "table" (gen 0)) "Notes" FieldType.text none 1 false user.id,
         RemoteCall.createView (genId "view" (gen 3)) (genId "table" (gen 0))
           "Grid view" ViewType.grid user.id] := by
  unfold createTableSubmit
  rw [if_neg (by simp [hname, hbase]), hauth]
  have h := runSeq_all_ok env.remote
    (tableCascadeCalls gen user baseId (jsTrim name)
      (if jsTrim description = "" then none else some (jsTrim description)))
    (fun c _ => hok c)
  simp only [tableCascadeCalls] at h
  simp [tableCascadeCalls, h]

/-- Witness for C2 at a concrete input. -/
theorem createTable_cascade_success_witness :
    jsTrim "My table" ≠ "" ∧ ("b1" : String) ≠ "" ∧
    createTableSubmit ⟨Except.ok ⟨"u1", "u1@example.com"⟩, fun _ => none⟩
        (fun n => (n, "rnd")) "b1" "My table" "" =
      submitSuccess
        [RemoteCall.createTable "table_0_rnd" "b1" "My table" none "u1",
         RemoteCall.createField "field_1_0_rnd" "table_0_rnd" "Name"
           FieldType.text none 0 false "u1",
         RemoteCall.createField "field_2_1_rnd" "table_0_rnd" "Notes"
           FieldType.text none 1 false "u1",
         RemoteCall.createView "view_3_rnd" "table_0_rnd" "Grid view"
           ViewType.grid "u1"] := by
  refine ⟨by decide, by decide, ?_⟩
  have h := createTable_cascade_success
    ⟨Except.ok ⟨"u1", "u1@example.com"⟩, fun _ => none⟩
    (fun n => (n, "rnd")) "b1" "My table" "" ⟨"u1", "u1@example.com"⟩
    (by decide) (by decide) rfl (fun c => rfl)
  rw [h]
  rfl

/-- C3 counterexample: when the very first step of the base cascade rejects
(remote oracle failing every call with "network down"), the code shows NO
alert — the claim's "for both base and table creation the failure is
surfaced as a blocking alert" is false for base creation, whose catch
branch only logs the error; the modal does stay open. -/
theorem createBase_failure_shows_no_alert :
    (createBaseSubmit
        ⟨Except.ok ⟨"u1", "u1@example.com"⟩, fun _ => some "network down"⟩
        (fun n => (n, "rnd")) "My base" "" "#2563EB").alertShown = none ∧
    (createBaseSubmit
        ⟨Except.ok ⟨"u1", "u1@example.com"⟩, fun _ => some "network down"⟩
        (fun n => (n, "rnd")) "My base" "" "#2563EB").loggedError =
      some "network down" ∧
    (createBaseSubmit
        ⟨Except.ok ⟨"u1", "u1@example.com"⟩, fun _ => some "network down"⟩
        (fun n => (n, "rnd")) "My base" "" "#2563EB").modalClosed = false := by
  refine ⟨by decide, by decide, by decide⟩

/-- C3 (amended): if any step of either creation cascade fails, the whole
cascade is abandoned — the issued calls are exactly the successful ones
followed by the failing call, with no further creates and no compensating
deletes — the modal stays open for retry with no success callback, and the
underlying message is logged; CreateTableModal additionally surfaces it as
a blocking alert with the underlying message (`tableFailure`), while
CreateBaseModal shows no alert (`baseFailure`). -/
theorem cascade_failure_abandoned :
    (∀ (env : Env) (gen : Nat → Nat × String)
        (name description color : String) (user : User)
        (A : List RemoteCall) (c : RemoteCall) (B : List RemoteCall)
        (e : String),
      jsTrim name ≠ "" → env.auth = Except.ok user →
      baseCascadeCalls gen user (jsTrim name)
          (if jsTrim description = "" then none
           else some (jsTrim description)) color = A ++ c :: B →
      (∀ a ∈ A, env.remote a = none) → env.remote c = some e →
      createBaseSubmit env gen name description color =
        baseFailure (A ++ [c]) e) ∧
    (∀ (env : Env) (gen : Nat → Nat × String)
        (baseId name description : String) (user : User)
        (A : List RemoteCall) (c : RemoteCall) (B : List RemoteCall)
        (e : String),
      jsTrim name ≠ "" → baseId ≠ "" → env.auth = Except.ok user →
      tableCascadeCalls gen user baseId (jsTrim name)
          (if jsTrim description = "" then none
           else some (jsTrim description)) = A ++ c :: B →
      (∀ a ∈ A, env.remote a = none) → env.remote c = some e →
      createTableSubmit env gen baseId name description =
        tableFailure (A ++ [c]) e) := by
  constructor
  · intro env gen name description color user A c B e hname hauth hsplit hA hc
    have h := runSeq_first_fail env.remote A c B e hA hc
    unfold createBaseSubmit
    rw [if_neg hname, hauth]
    simp [hsplit, h]
  · intro env gen baseId name description user A c B e hname hbase hauth
      hsplit hA hc
    have h := runSeq_first_fail env.remote A c B e hA hc
    unfold createTableSubmit
    rw [if_neg (by simp [hname, hbase]), hauth]
    simp [hsplit, h]

/-- Witness for C3 (amended) at concrete inputs: the first call of each
cascade rejects with "boom"; the run equals the failure outcome whose call
list is that single call. -/
theorem cascade_failure_abandoned_witness :
    jsTrim "My base" ≠ "" ∧ jsTrim "My table" ≠ "" ∧ ("b1" : String) ≠ "" ∧
    createBaseSubmit
        ⟨Except.ok ⟨"u1", "u1@example.com"⟩, fun _ => some "boom"⟩
        (fun n => (n, "rnd")) "My base" "" "#2563EB" =
      baseFailure
        [RemoteCall.createBase "base_0_rnd" "My base" none "#2563EB" "u1"]
        "boom" ∧
    createTableSubmit
        ⟨Except.ok ⟨"u1", "u1@example.com"⟩, fun _ => some "boom"⟩
        (fun n => (n, "rnd")) "b1" "My table" "" =
      tableFailure
        [RemoteCall.createTable "table_0_rnd" "b1" "My table" none "u1"]
        "boom" := by
  refine ⟨by decide, by decide, by decide, ?_, ?_⟩
  · have h := cascade_failure_abandoned.1
      ⟨Except.ok ⟨"u1", "u1@example.com"⟩, fun _ => some "boom"⟩
      (fun n => (n, "rnd")) "My base" "" "#2563EB" ⟨"u1", "u1@example.com"⟩
      []
      (RemoteCall.createBase "base_0_rnd" "My base" none "#2563EB" "u1")
      [RemoteCall.createTable "table_1_rnd" "base_0_rnd" "Table 1" none "u1",
       RemoteCall.createField "field_2_rnd" "table_1_rnd" "Name"
         FieldType.text none 0 false "u1",
       RemoteCall.createField "field_3_rnd" "table_1_rnd" "Notes"
         FieldType.text none 1 false "u1",
       RemoteCall.createField "field_4_rnd" "table_1_rnd" "Status"
         FieldType.select (some statusOptions) 2 false "u1",
       RemoteCall.createView "view_5_rnd" "table_1_rnd" "Grid view"
         ViewType.grid "u1"]
      "boom" (by decide) rfl (by decide) (by simp) rfl
    simpa using h
  · have h := cascade_failure_abandoned.2
      ⟨Except.ok ⟨"u1", "u1@example.com"⟩, fun _ => some "boom"⟩
      (fun n => (n, "rnd")) "b1" "My table" "" ⟨"u1", "u1@example.com"⟩
      []
      (RemoteCall.createTable "table_0_rnd" "b1" "My table" none "u1")
      [RemoteCall.createField "field_1_0_rnd" "table_0_rnd" "Name"
         FieldType.text none 0 false "u1",
       RemoteCall.createField "field_2_1_rnd" "table_0_rnd" "Notes"
         FieldType.text none 1 false "u1",
       RemoteCall.createView "view_3_rnd" "table_0_rnd" "Grid view"
         ViewType.grid "u1"]
      "boom" (by decide) (by decide) rfl (by decide) (by simp) rfl
    simpa using h

/-- C4 counterexample: an unparseable non-empty Field.options string is NOT
defaulted to an empty list — the exception from `JSON.parse` propagates out
of both the grid select-cell renderer and the record-form select input.
The option-parse oracle here models `JSON.parse`'s behavior at the string
"not json", which is not valid JSON and makes `JSON.parse` throw. -/
theorem options_parse_error_propagates :
    renderCellValue (fun _ => some []) (fun _ => none)
        ⟨"r1", "t1", "", "u1", "", ""⟩
        ⟨"fld1", "t1", "Status", FieldType.select, some "not json", false, 0,
          "u1", "", ""⟩ = Except.error "not json" ∧
    renderFieldInput (fun _ => none) []
        ⟨"fld1", "t1", "Status", FieldType.select, some "not json", false, 0,
          "u1", "", ""⟩ = Except.error "not json" := by
  refine ⟨rfl, rfl⟩

/-- C4 (amended): an unparseable `Record.data` mapping is defaulted to the
empty mapping (`parseRecordData` guards `JSON.parse` with try/catch), but
an unparseable non-empty `Field.options` option list is not defaulted: in
both deserializing render paths (grid select cell and record-form select
input) the parse exception propagates; the empty-list default applies only
when the options string is absent or empty. -/
theorem malformed_payload_handling :
    (∀ (parse : String → Option RecordData) (s : String),
      parse s = none → parseRecordData parse s = []) ∧
    (∀ (parse : String → Option RecordData)
        (parseOpts : String → Option (List FieldOption))
        (record : Record) (field : Field) (s : String),
      field.type = FieldType.select → field.options = some s → s ≠ "" →
      parseOpts s = none →
      renderCellValue parse parseOpts record field = Except.error s) ∧
    (∀ (parseOpts : String → Option (List FieldOption))
        (formData : RecordData) (field : Field) (s : String),
      field.type = FieldType.select → field.options = some s → s ≠ "" →
      parseOpts s = none →
      renderFieldInput parseOpts formData field = Except.error s) := by
  refine ⟨?_, ?_, ?_⟩
  · intro parse s h
    simp [parseRecordData, h]
  · intro parse parseOpts record field s ht ho hs hp
    simp [renderCellValue, ht, ho, hs, hp]
  · intro parseOpts formData field s ht ho hs hp
    simp [renderFieldInput, ht, ho, hs, hp]

/-- Witness for C4 (amended) at concrete inputs: a data string the parse
oracle rejects defaults to the empty mapping; an options string the
option-parse oracle rejects makes both renderers propagate the error. -/
theorem malformed_payload_handling_witness :
    ((fun _ => none : String → Option RecordData) "zzz" = none ∧
     parseRecordData (fun _ => none) "zzz" = []) ∧
    renderCellValue (fun _ => some []) (fun _ => none)
        ⟨"r1", "t1", "", "u1", "", ""⟩
        ⟨"f1", "t1", "Status", FieldType.select, some "bad", false, 0,
          "u1", "", ""⟩ = Except.error "bad" ∧
    renderFieldInput (fun _ => none) []
        ⟨"f1", "t1", "Status", FieldType.select, some "bad", false, 0,
          "u1", "", ""⟩ = Except.error "bad" := by
  refine ⟨⟨rfl, ?_⟩, ?_, ?_⟩
  · exact malformed_payload_handling.1 (fun _ => none) "zzz" rfl
  · exact malformed_payload_handling.2.1 (fun _ => some []) (fun _ => none)
      ⟨"r1", "t1", "", "u1", "", ""⟩
      ⟨"f1", "t1", "Status", FieldType.select, some "bad", false, 0,
        "u1", "", ""⟩ "bad" rfl rfl (by decide) rfl
  · exact malformed_payload_handling.2.2 (fun _ => none) []
      ⟨"f1", "t1", "Status", FieldType.select, some "bad", false, 0,
        "u1", "", ""⟩ "bad" rfl rfl (by decide) rfl

/-- The ids of the field-create calls in a trace, in order. -/
def fieldCreateIds : List RemoteCall → List String
  | [] => []
  | RemoteCall.createField i _ _ _ _ _ _ _ :: rest => i :: fieldCreateIds rest
  | _ :: rest => fieldCreateIds rest

/-- C8 counterexample: the base cascade's sibling field ids carry NO index
(the pattern is timestamp plus random suffix only), so when the timestamp
and random draws repeat across the rapid sequential generation sites, all
three sibling field ids are identical — they are not pairwise distinct. -/
theorem baseCascade_sibling_field_id_collision :
    fieldCreateIds (createBaseSubmit
        ⟨Except.ok ⟨"u1", "u1@example.com"⟩, fun _ => none⟩
        (fun _ => (1000, "abc")) "My base" "" "#2563EB").calls =
      ["field_1000_abc", "field_1000_abc", "field_1000_abc"] ∧
    ¬ (fieldCreateIds (createBaseSubmit
        ⟨Except.ok ⟨"u1", "u1@example.com"⟩, fun _ => none⟩
        (fun _ => (1000, "abc")) "My base" "" "#2563EB").calls).Nodup := by
  refine ⟨by decide, by decide⟩

/-- For one timestamp/random draw, the indexed field-id pattern gives
distinct strings at indices 0 and 1 (they differ at the index digit). -/
theorem genFieldIdIndexed_ne (d : Nat × String) :
    genFieldIdIndexed d 0 ≠ genFieldIdIndexed d 1 := by
  unfold genFieldIdIndexed
  intro h
  have hd := congrArg String.data h
  have e0 : (toString (0 : Nat)).data = ['0'] := rfl
  have e1 : (toString (1 : Nat)).data = ['1'] := rfl
  simp only [String.data_append, List.append_assoc, e0, e1] at hd
  have h1 := List.append_cancel_left hd
  have h2 := List.append_cancel_left h1
  have h3 := List.append_cancel_left h2
  simp at h3

/-- C8 (amended): only the table cascade's sibling field ids include the
loop index besides the timestamp and random suffix; those two sibling ids
remain pairwise distinct even under rapid sequential calls in which the two
generation sites draw the same timestamp and the same random suffix.  (The
base cascade's unindexed sibling field ids can collide under equal draws,
per the counterexample.) -/
theorem tableCascade_sibling_field_ids_distinct (env : Env)
    (gen : Nat → Nat × String) (baseId name description : String)
    (user : User)
    (hname : jsTrim name ≠ "") (hbase : baseId ≠ "")
    (hauth : env.auth = Except.ok user) (hok : ∀ c, env.remote c = none)
    (hrapid : gen 1 = gen 2) :
    (fieldCreateIds (createTableSubmit env gen baseId name
        description).calls).Nodup := by
  unfold createTableSubmit
  rw [if_neg (by simp [hname, hbase]), hauth]
  have h := runSeq_all_ok env.remote
    (tableCascadeCalls gen user baseId (jsTrim name)
      (if jsTrim description = "" then none else some (jsTrim description)))
    (fun c _ => hok c)
  simp only [tableCascadeCalls] at h
  simp only [tableCascadeCalls, h]
  rw [← hrapid]
  simp only [submitSuccess, fieldCreateIds, List.nodup_cons, List.mem_cons,
    List.not_mem_nil, or_false, List.nodup_nil, and_true, List.mem_singleton]
  exact ⟨fun hcontra => genFieldIdIndexed_ne (gen 1) hcontra, by simp⟩

/-- Witness for C8 (amended) at a concrete input: both field-generation
sites draw (5, "zz"); the two sibling field ids are still distinct. -/
theorem tableCascade_sibling_field_ids_distinct_witness :
    jsTrim "My table" ≠ "" ∧ ("b1" : String) ≠ "" ∧
    ((fun _ => ((5 : Nat), "zz")) : Nat → Nat × String) 1 =
      (fun _ => ((5 : Nat), "zz")) 2 ∧
    (fieldCreateIds (createTableSubmit
        ⟨Except.ok ⟨"u1", "u1@example.com"⟩, fun _ => none⟩
        (fun _ => (5, "zz")) "b1" "My table" "").calls).Nodup := by
  refine ⟨by decide, by decide, rfl, ?_⟩
  exact tableCascade_sibling_field_ids_distinct
    ⟨Except.ok ⟨"u1", "u1@example.com"⟩, fun _ => none⟩
    (fun _ => (5, "zz")) "b1" "My table" "" ⟨"u1", "u1@example.com"⟩
    (by decide) (by decide) rfl (fun c => rfl) rfl

end AirClone
